import Mathlib

/-!
Verification of the document round-trip / formatting-preservation core of the
resume-tailoring repository.

Text is modelled as a list of characters (`Str`), a paragraph as its text plus a
formatting signature (`Sig`) capturing the non-text structural properties that
python-docx paragraphs carry (alignment, spacing, numbering, run-level font
properties).  The functions below are shallow embeddings of:

  * `resume_txt_converter.py`  (`ResumeTextConverter`): the docx <-> structured
    text codec and its section builders;
  * `automated_resume_tailor.py`: anchor discovery, section location, strict
    section-body replacement;
  * `tailor_resume_strict.py` (`rewrite_section_from_lines`): the strict section
    rewriter.  Its helper functions (`clone_paragraph_after`,
    `paragraph_xml_signature`, `set_paragraph_text_preserve_runs`,
    `has_numbering`, `delete_paragraph`) are absent from the available source
    (the file is truncated); they are modelled from the specification and
    marked as such in their doc comments.
-/

namespace ResumeTailor

/-- Text is a list of characters; this mirrors Python string indexing/slicing. -/
abbrev Str := List Char

/-- Converts a Lean string literal into the `Str` representation. -/
def str (s : String) : Str := s.toList

/-- Python whitespace (the `\s` class and `str.strip` default set, ASCII range). -/
def isPySpace (c : Char) : Bool :=
  c = ' ' || c = '\t' || c = '\n' || c = '\r' || c = '\x0b' || c = '\x0c'

/-- The character class `[•\-\*\t\s]` stripped from the front of replacement
lines by `_sanitize` in `rewrite_section_from_lines`. -/
def leadStripChar (c : Char) : Bool :=
  c = '•' || c = '-' || c = '*' || c = '\t' || isPySpace c

/-- Python `str.strip()`: remove whitespace from both ends. -/
def stripL (l : Str) : Str :=
  ((l.dropWhile isPySpace).reverse.dropWhile isPySpace).reverse

/-- Python `re.sub(r"\s+", " ", s)`: each maximal whitespace run becomes one space. -/
def collapseWS : Str → Str
  | [] => []
  | [c] => if isPySpace c then [' '] else [c]
  | c :: d :: rest =>
    if isPySpace c then
      if isPySpace d then collapseWS (d :: rest)
      else ' ' :: collapseWS (d :: rest)
    else c :: collapseWS (d :: rest)

/-- Python `str.upper()` (ASCII). -/
def upperL (l : Str) : Str := l.map Char.toUpper

/-- Python `str.lower()` (ASCII). -/
def lowerL (l : Str) : Str := l.map Char.toLower

/-- Python `str.startswith`. -/
def startsWithL (pre l : Str) : Bool := List.isPrefixOf pre l

/-- Python `str.endswith`. -/
def endsWithL (suf l : Str) : Bool := List.isSuffixOf suf l

/-- Python `needle in hay` substring test. -/
def isSubL (needle : Str) : Str → Bool
  | [] => needle.isEmpty
  | c :: rest => List.isPrefixOf needle (c :: rest) || isSubL needle rest

/-- Python `str.split('\n')`. -/
def splitOnNewline : Str → List Str
  | [] => [[]]
  | c :: rest =>
    if c = '\n' then [] :: splitOnNewline rest
    else
      match splitOnNewline rest with
      | [] => [[c]]
      | l :: ls => (c :: l) :: ls

/-- One step of whitespace splitting, consumed from the right. -/
def pySplitStep (c : Char) (acc : List Str × Str) : List Str × Str :=
  if isPySpace c then
    if acc.2.isEmpty then acc else (acc.2 :: acc.1, [])
  else (acc.1, c :: acc.2)

/-- Python `str.split()` with no argument: split on whitespace runs, no empties. -/
def pySplitWs (l : Str) : List Str :=
  let acc := l.foldr pySplitStep ([], [])
  if acc.2.isEmpty then acc.1 else acc.2 :: acc.1

/-- Consume exactly `n` digits, returning the remainder. -/
def takeDigits : Nat → Str → Option Str
  | 0, l => some l
  | _ + 1, [] => none
  | n + 1, c :: rest => if c.isDigit then takeDigits n rest else none

/-- Consume one optional `[-\s]` separator. -/
def skipOptSep : Str → Str
  | [] => []
  | c :: rest => if c = '-' || isPySpace c then rest else c :: rest

/-- Match `\d{3}[-\s]?\d{3}[-\s]?\d{4}` at the current position.  The separator
consumption is deterministic because a separator character is never a digit,
so the regex's optional group cannot succeed by backtracking. -/
def phoneHere (l : Str) : Bool :=
  match takeDigits 3 l with
  | none => false
  | some l1 =>
    match takeDigits 3 (skipOptSep l1) with
    | none => false
    | some l2 => (takeDigits 4 (skipOptSep l2)).isSome

/-- Python `re.search(r'\d{3}[-\s]?\d{3}[-\s]?\d{4}', line)` as a Bool. -/
def hasPhone (l : Str) : Bool := l.tails.any phoneHere

/-- Python `str.isupper()`: at least one cased character and no lowercase one
(ASCII: cased = letter). -/
def pyIsUpper (l : Str) : Bool :=
  l.any (fun c => c.isUpper || c.isLower) && l.all (fun c => !c.isLower)

/-- Python `line.split(':', 1)` for a line known to contain a colon:
the part before the first colon and the part after it. -/
def splitOnceColon (l : Str) : Str × Str :=
  (l.takeWhile (fun c => c ≠ ':'), (l.dropWhile (fun c => c ≠ ':')).drop 1)

/-- `s.replace('**', '').replace('*', '')`: the first replace deletes pairs and
introduces no new asterisk, the second deletes every remaining one, so the net
effect is removing every `*`. -/
def removeStars (l : Str) : Str := l.filter (fun c => c ≠ '*')

/-! ## Data model

A paragraph node: its text plus the non-text structural properties.  `Sig` is
the comparable formatting fingerprint of spec 4.1: paragraph alignment, spacing
before/after, presence of numbering (`w:numPr`), and per-run font properties in
run order.  An `Option` field is `none` when the underlying XML property is
absent. -/

/-- Paragraph alignment values used by the code (`WD_ALIGN_PARAGRAPH`). -/
inductive Align
  | left
  | center
deriving DecidableEq

/-- Run-level character formatting: font name, size in points, bold, underline. -/
structure RunFmt where
  font : Option Str
  size : Option Nat
  bold : Option Bool
  underline : Option Bool
deriving DecidableEq

/-- The formatting signature of a paragraph: every tracked non-text property. -/
structure Sig where
  align : Option Align
  spaceBefore : Option Nat
  spaceAfter : Option Nat
  numPr : Bool
  runs : List RunFmt
deriving DecidableEq

/-- A paragraph node: text content plus its formatting signature. -/
structure Paragraph where
  text : Str
  sig : Sig
deriving DecidableEq

/-- A compact distinct signature used for concrete template paragraphs. -/
def mkSig (n : Nat) : Sig := ⟨none, none, none, false, [⟨none, some n, none, none⟩]⟩

/-! ## `resume_txt_converter.py`: the document <-> structured-text codec -/

/-- `self.section_markers['HEADER']`. -/
def MARKER_HEADER : Str := str "===HEADER==="

/-- `self.section_markers['EDUCATION']`. -/
def MARKER_EDUCATION : Str := str "===EDUCATION==="

/-- `self.section_markers['PROJECTS']`. -/
def MARKER_PROJECTS : Str := str "===PROJECTS==="

/-- `self.section_markers['EXPERIENCE']`. -/
def MARKER_EXPERIENCE : Str := str "===PROFESSIONAL EXPERIENCE==="

/-- `self.section_markers['SKILLS']`. -/
def MARKER_SKILLS : Str := str "===TECHNICAL SKILLS==="

/-- The five marker strings of `self.section_markers.values()`. -/
def allMarkers : List Str :=
  [MARKER_HEADER, MARKER_EDUCATION, MARKER_PROJECTS, MARKER_EXPERIENCE, MARKER_SKILLS]

/-- The keyword list of `ResumeTextConverter._is_section_header`. -/
def section_keywords : List Str :=
  [str "EDUCATION", str "PROFESSIONAL EXPERIENCE", str "EXPERIENCE",
   str "TECHNICAL SKILLS", str "SKILLS", str "CORE SKILLS", str "SUMMARY",
   str "PROJECTS"]

/-- `ResumeTextConverter._is_section_header`: the upper-cased, stripped text
contains one of the section keywords. -/
def is_section_header (text : Str) : Bool :=
  let text_upper := stripL (upperL text)
  section_keywords.any (fun kw => isSubL kw text_upper)

/-- `ResumeTextConverter._map_to_section_key`. -/
def map_to_section_key (header_text : Str) : Option Str :=
  let header_upper := upperL header_text
  if isSubL (str "EDUCATION") header_upper then some (str "EDUCATION")
  else if isSubL (str "PROJECTS") header_upper then some (str "PROJECTS")
  else if isSubL (str "EXPERIENCE") header_upper then some (str "EXPERIENCE")
  else if isSubL (str "SKILL") header_upper || isSubL (str "TECHNICAL") header_upper then
    some (str "SKILLS")
  else none

/-- The marker string for a section key, `self.section_markers[section_key]`. -/
def sectionMarkerOf (key : Str) : Str :=
  if key = str "HEADER" then MARKER_HEADER
  else if key = str "EDUCATION" then MARKER_EDUCATION
  else if key = str "PROJECTS" then MARKER_PROJECTS
  else if key = str "EXPERIENCE" then MARKER_EXPERIENCE
  else MARKER_SKILLS

/-- Encoder loop state: the accumulated `structured_lines` and `current_section`. -/
structure EncState where
  lines : List Str
  cur : Option Str
deriving DecidableEq

/-- One iteration of the paragraph loop in
`ResumeTextConverter.docx_to_structured_txt`.  Marker elements carry the `\n`
prefix embedded by the source's `f"\n{marker}"`.  Before the first mapped
header, regular content triggers `structured_lines.insert(0, HEADER marker)`
provided no marker occurs in the joined lines so far. -/
def encStep (st : EncState) (para : Paragraph) : EncState :=
  let text := stripL para.text
  if text.isEmpty then st
  else if is_section_header text then
    match map_to_section_key text with
    | some key => ⟨st.lines ++ [str "\n" ++ sectionMarkerOf key, text], some key⟩
    | none => ⟨st.lines ++ [text], st.cur⟩
  else
    match st.cur with
    | some _ => ⟨st.lines ++ [text], st.cur⟩
    | none =>
      let st2 :=
        if allMarkers.any (fun m => isSubL m (List.intercalate (str "\n") st.lines)) then st
        else EncState.mk (MARKER_HEADER :: st.lines) (some (str "HEADER"))
      ⟨st2.lines ++ [text], st2.cur⟩

/-- `ResumeTextConverter.docx_to_structured_txt`: encode a document into the
marker-tagged structured text. -/
def docx_to_structured_txt (doc : List Paragraph) : Str :=
  List.intercalate (str "\n") (doc.foldl encStep ⟨[], none⟩).lines

/-- The formatting-instruction keywords of `_clean_structured_txt`. -/
def cleanKeywords : List Str :=
  [str "**FORMATTING SPECIFICATIONS:**", str "**CONTENT REQUIREMENTS:**",
   str "**WHAT NEVER CHANGES:**", str "**Instructions:**", str "**Output Format:**"]

/-- The numbered prefixes `1.` .. `5.` checked by `_clean_structured_txt`. -/
def numPrefixes : List Str := [str "1.", str "2.", str "3.", str "4.", str "5."]

/-- One iteration of `_clean_structured_txt` over `(cleaned_lines, skip_flag)`. -/
def cleanStep (acc : List Str × Bool) (rawLine : Str) : List Str × Bool :=
  let line := stripL rawLine
  if cleanKeywords.any (fun kw => isSubL kw line) then (acc.1, true)
  else if acc.2 then
    if startsWithL (str "===") line ||
        (!line.isEmpty && !startsWithL (str "-") line && !startsWithL (str "**") line &&
         !startsWithL (str "*") line && numPrefixes.all (fun p => !startsWithL p line)) then
      (acc.1 ++ [line], false)
    else (acc.1, true)
  else (acc.1 ++ [line], false)

/-- `ResumeTextConverter._clean_structured_txt`. -/
def clean_structured_txt (txt : Str) : Str :=
  List.intercalate (str "\n") ((splitOnNewline txt).foldl cleanStep ([], false)).1

/-- Replace (or insert) the value of a section key, `sections[key] = value`. -/
def setSec (m : List (Str × List Str)) (k : Str) (v : List Str) : List (Str × List Str) :=
  if m.any (fun kv => kv.1 = k) then m.map (fun kv => if kv.1 = k then (k, v) else kv)
  else m ++ [(k, v)]

/-- `sections.get(key, [])`. -/
def getSec (m : List (Str × List Str)) (k : Str) : List Str :=
  match m.find? (fun kv => kv.1 = k) with
  | some kv => kv.2
  | none => []

/-- Whether a key is present, with its value (`sections[key]` lookup). -/
def lookupSec (m : List (Str × List Str)) (k : Str) : Option (List Str) :=
  (m.find? (fun kv => kv.1 = k)).map (fun kv => kv.2)

/-- Parser loop state of `_parse_ai_structured_txt`: the section dictionary,
`current_section` and `current_lines`. -/
structure ParseState where
  sections : List (Str × List Str)
  cur : Option Str
  curLines : List Str
deriving DecidableEq

/-- `ResumeTextConverter._save_and_start_section`: save the current section if
it has lines, and make `newKey` current (the caller resets `current_lines`). -/
def save_and_start_section (st : ParseState) (newKey : Str) : ParseState :=
  let sections :=
    match st.cur with
    | some k => if st.curLines ≠ [] then setSec st.sections k st.curLines else st.sections
    | none => st.sections
  ⟨sections, some newKey, []⟩

/-- One iteration of the line loop in `_parse_ai_structured_txt`. -/
def parseStep (st : ParseState) (rawLine : Str) : ParseState :=
  let line := stripL rawLine
  if line.isEmpty then st
  else if isSubL MARKER_HEADER line then save_and_start_section st (str "HEADER")
  else if isSubL MARKER_EDUCATION line then save_and_start_section st (str "EDUCATION")
  else if isSubL MARKER_PROJECTS line then save_and_start_section st (str "PROJECTS")
  else if isSubL MARKER_EXPERIENCE line || isSubL (str "===EXPERIENCE===") line then
    save_and_start_section st (str "EXPERIENCE")
  else if isSubL MARKER_SKILLS line || isSubL (str "===SKILLS===") line then
    save_and_start_section st (str "SKILLS")
  else
    match st.cur with
    | some _ => { st with curLines := st.curLines ++ [line] }
    | none =>
      let sections :=
        if st.sections.any (fun kv => kv.1 = str "HEADER") then st.sections
        else st.sections ++ [(str "HEADER", [])]
      { st with sections := setSec sections (str "HEADER") (getSec sections (str "HEADER") ++ [line]) }

/-- The final save of `_parse_ai_structured_txt`: `if current_section and
current_lines: sections[current_section] = current_lines`. -/
def parseFinish (st : ParseState) : List (Str × List Str) :=
  match st.cur with
  | some k => if st.curLines ≠ [] then setSec st.sections k st.curLines else st.sections
  | none => st.sections

/-- `ResumeTextConverter._parse_ai_structured_txt`. -/
def parse_ai_structured_txt (txt : Str) : List (Str × List Str) :=
  parseFinish ((splitOnNewline txt).foldl parseStep ⟨[], none, []⟩)

/-- The substrings whose presence stops name-word collection in
`_format_name_correctly`. -/
def nameStopSubstrings : List Str :=
  [str "@", str "|", str "http", str ".com", str "832", str "713"]

/-- Collect words until one contains a stop substring (`for word ... else break`). -/
def collectNameWords : List Str → List Str
  | [] => []
  | w :: ws =>
    if nameStopSubstrings.any (fun ss => isSubL ss w) then []
    else w :: collectNameWords ws

/-- Capitalize: first letter upper, rest lower (`word[0].upper() + word[1:].lower()`). -/
def capitalizeWord : Str → Str
  | [] => []
  | c :: rest => c.toUpper :: lowerL rest

/-- `ResumeTextConverter._format_name_correctly`. -/
def format_name_correctly (nameLine : Str) : Str :=
  let words := pySplitWs (stripL nameLine)
  let nameWords := collectNameWords words
  if nameWords.length ≥ 2 then
    capitalizeWord (nameWords.headD []) ++ [' '] ++ capitalizeWord (nameWords.getLastD [])
  else stripL nameLine

/-- `ResumeTextConverter._is_contact_info`. -/
def is_contact_info (line : Str) : Bool :=
  isSubL (str "@") line || isSubL (str "linkedin") (lowerL line) ||
  isSubL (str "http") (lowerL line) || hasPhone line || isSubL (str "|") line

/-- `'Times New Roman'`, the hardcoded `format_specs['font_name']`. -/
def TNR : Str := str "Times New Roman"

/-- The blank paragraph that `_add_projects_section` and friends insert before
a section header: no alignment, no run, zero spacing. -/
def blankPara : Paragraph := ⟨[], ⟨none, some 0, some 0, false, []⟩⟩

/-- A hardcoded section-header paragraph: left aligned, one 13pt bold
underlined Times New Roman run, zero spacing. -/
def secHeaderPara (txt : Str) : Paragraph :=
  ⟨txt, ⟨some Align.left, some 0, some 0, false, [⟨some TNR, some 13, some true, some true⟩]⟩⟩

/-- `ResumeTextConverter._add_header_section`.  Note the source adds the
paragraph and sets its center alignment before deciding to `continue` on a
non-contact line, leaving an empty centered paragraph with no run and no
spacing overrides in the document. -/
def add_header_section (headerLines : List Str) : List Paragraph :=
  headerLines.enum.filterMap fun il =>
    if (stripL il.2).isEmpty then none
    else if il.1 = 0 then
      some ⟨format_name_correctly il.2,
            ⟨some Align.center, some 0, some 0, false, [⟨some TNR, some 16, some true, none⟩]⟩⟩
    else if is_contact_info il.2 then
      some ⟨stripL il.2,
            ⟨some Align.center, some 0, some 0, false, [⟨some TNR, some 11, some false, none⟩]⟩⟩
    else some ⟨[], ⟨some Align.center, none, none, false, []⟩⟩

/-- `ResumeTextConverter._add_education_section` (no leading blank paragraph). -/
def add_education_section (educationLines : List Str) : List Paragraph :=
  if educationLines.isEmpty then []
  else
    secHeaderPara (str "EDUCATION") ::
      educationLines.filterMap fun line =>
        if (stripL line).isEmpty then none
        else some ⟨stripL line,
          ⟨some Align.left, some 0, some 0, false, [⟨some TNR, some 12, some false, none⟩]⟩⟩

/-- `if not content.startswith('•'): content = f"• {content}"`. -/
def bulletPrefix (content : Str) : Str :=
  if startsWithL (str "•") content then content else str "• " ++ content

/-- Append `'.'` unless the content already ends with `'.'`, `'?'` or `'!'`. -/
def bulletSuffix (content2 : Str) : Str :=
  if endsWithL (str ".") content2 || endsWithL (str "?") content2 ||
      endsWithL (str "!") content2 then content2
  else content2 ++ str "."

/-- The bullet-line text mutation shared by the projects and experience
builders: strip, prefix `'• '` when the line does not start with `'•'`, append
`'.'` when it does not end with `'.'`, `'?'` or `'!'`. -/
def bulletizeLine (line : Str) : Str := bulletSuffix (bulletPrefix (stripL line))

/-- One content line of `_add_projects_section`: a bold 12pt title paragraph
when the raw line contains `'|'`, otherwise a regular 11pt bulletized line. -/
def renderProjectsLine (line : Str) : Option Paragraph :=
  if (stripL line).isEmpty then none
  else if isSubL (str "|") line then
    some ⟨stripL line,
      ⟨some Align.left, some 0, some 0, false, [⟨some TNR, some 12, some true, none⟩]⟩⟩
  else
    some ⟨bulletizeLine line,
      ⟨some Align.left, some 0, some 0, false, [⟨some TNR, some 11, some false, none⟩]⟩⟩

/-- `ResumeTextConverter._add_projects_section`. -/
def add_projects_section (projectsLines : List Str) : List Paragraph :=
  if projectsLines.isEmpty then []
  else blankPara :: secHeaderPara (str "PROJECTS") :: projectsLines.filterMap renderProjectsLine

/-- One content line of `_add_experience_section` (same rendering as projects). -/
def renderExperienceLine (line : Str) : Option Paragraph :=
  if (stripL line).isEmpty then none
  else if isSubL (str "|") line then
    some ⟨stripL line,
      ⟨some Align.left, some 0, some 0, false, [⟨some TNR, some 12, some true, none⟩]⟩⟩
  else
    some ⟨bulletizeLine line,
      ⟨some Align.left, some 0, some 0, false, [⟨some TNR, some 11, some false, none⟩]⟩⟩

/-- `ResumeTextConverter._add_experience_section`. -/
def add_experience_section (experienceLines : List Str) : List Paragraph :=
  if experienceLines.isEmpty then []
  else blankPara :: secHeaderPara (str "PROFESSIONAL EXPERIENCE") ::
    experienceLines.filterMap renderExperienceLine

/-- The skip keywords of `_add_skills_section`. -/
def skillSkipKeywords : List Str :=
  [str "FORMATTING", str "CONTENT REQUIREMENTS", str "WHAT NEVER CHANGES",
   str "Instructions:", str "Action-Oriented:", str "STAR Flow:",
   str "Quantifiable Results:", str "Concise & Specific:", str "ATS Alignment:",
   str "Output Format:"]

/-- One content line of `_add_skills_section`. -/
def renderSkillsLine (line : Str) : Option Paragraph :=
  if (stripL line).isEmpty then none
  else if skillSkipKeywords.any (fun kw => isSubL kw line) then none
  else if isSubL (str ":") line then
    let parts := splitOnceColon line
    let category := stripL (removeStars (stripL parts.1))
    let skills := stripL (removeStars (stripL parts.2))
    if skills.isEmpty then
      some ⟨category ++ str ":",
        ⟨some Align.left, some 0, some 0, false, [⟨some TNR, some 11, some true, none⟩]⟩⟩
    else
      some ⟨category ++ str ":" ++ str " " ++ skills,
        ⟨some Align.left, some 0, some 0, false,
         [⟨some TNR, some 11, some true, none⟩, ⟨some TNR, some 11, some false, none⟩]⟩⟩
  else
    some ⟨stripL (removeStars line),
      ⟨some Align.left, some 0, some 0, false, [⟨some TNR, some 11, some false, none⟩]⟩⟩

/-- `ResumeTextConverter._add_skills_section`. -/
def add_skills_section (skillsLines : List Str) : List Paragraph :=
  if skillsLines.isEmpty then []
  else blankPara :: secHeaderPara (str "TECHNICAL SKILLS") ::
    skillsLines.filterMap renderSkillsLine

/-- `ResumeTextConverter.structured_txt_to_docx`: clean, parse, then build a
brand-new document from the five hardcoded section builders.  The source
function receives a `master_docx_path` parameter but never reads it, so the
embedding takes only the structured text; margin setup touches no paragraph. -/
def structured_txt_to_docx (structuredTxt : Str) : List Paragraph :=
  let sections := parse_ai_structured_txt (clean_structured_txt structuredTxt)
  add_header_section (getSec sections (str "HEADER")) ++
  add_education_section (getSec sections (str "EDUCATION")) ++
  add_projects_section (getSec sections (str "PROJECTS")) ++
  add_experience_section (getSec sections (str "EXPERIENCE")) ++
  add_skills_section (getSec sections (str "SKILLS"))

/-! ## `automated_resume_tailor.py`: anchors, section location, strict body replacement -/

/-- `AutomatedResumeTailor._is_all_caps_header`: `t.isupper() and 0 < len(t) <= 48`. -/
def is_all_caps_header (text : Str) : Bool :=
  let t := stripL text
  pyIsUpper t && decide (0 < t.length) && decide (t.length ≤ 48)

/-- `AutomatedResumeTailor._has_numbering` (and the strict script's
`has_numbering`): whether a `w:numPr` element occurs among the paragraph's
properties.  The XML walk of the source is represented by the `numPr` Bool of
the signature, which records exactly the presence of that element. -/
def has_numbering (p : Paragraph) : Bool := p.sig.numPr

/-- The four style-anchor slots of `_build_style_anchors`. -/
structure Anchors where
  sectionHeader : Option Paragraph
  bullet : Option Paragraph
  body : Option Paragraph
  contact : Option Paragraph
deriving DecidableEq

/-- The guarded `SectionHeader` assignment of `_build_style_anchors`. -/
def anchorStepHeader (a : Anchors) (p : Paragraph) (t : Str) : Anchors :=
  if a.sectionHeader.isNone && is_all_caps_header t then { a with sectionHeader := some p }
  else a

/-- The guarded `Contact` assignment of `_build_style_anchors`. -/
def anchorStepContact (a : Anchors) (p : Paragraph) (t : Str) : Anchors :=
  if a.contact.isNone && (isSubL (str "@") t || isSubL (str "phone") (lowerL t) ||
      isSubL (str "linkedin") (lowerL t)) then { a with contact := some p }
  else a

/-- The guarded `Bullet` assignment of `_build_style_anchors`. -/
def anchorStepBullet (a : Anchors) (p : Paragraph) (t : Str) : Anchors :=
  if a.bullet.isNone && (has_numbering p || startsWithL (str "•") t ||
      startsWithL (str "- ") t) then { a with bullet := some p }
  else a

/-- The guarded `Body` assignment of `_build_style_anchors`: non-empty stripped
text, not an ALL-CAPS header, and no numbering formatting; a bullet glyph at
the start of the text is not part of this guard. -/
def anchorStepBody (a : Anchors) (p : Paragraph) (t : Str) : Anchors :=
  if a.body.isNone && (!t.isEmpty && !is_all_caps_header t && !has_numbering p) then
    { a with body := some p }
  else a

/-- One iteration of the paragraph loop in `_build_style_anchors`: four
independent guarded assignments (first match wins per slot), in source order. -/
def anchorStep (a : Anchors) (p : Paragraph) : Anchors :=
  let t := stripL p.text
  anchorStepBody (anchorStepBullet (anchorStepContact (anchorStepHeader a p t) p t) p t) p t

/-- The loop of `_build_style_anchors`, with the early `break` once all four
slots are filled. -/
def buildStyleAnchorsGo (a : Anchors) : List Paragraph → Anchors
  | [] => a
  | p :: rest =>
    let a4 := anchorStep a p
    if a4.sectionHeader.isSome && a4.bullet.isSome && a4.body.isSome && a4.contact.isSome then a4
    else buildStyleAnchorsGo a4 rest

/-- `AutomatedResumeTailor._build_style_anchors`. -/
def build_style_anchors (doc : List Paragraph) : Anchors :=
  buildStyleAnchorsGo ⟨none, none, none, none⟩ doc

/-- Loop state of `_locate_sections`. -/
structure LocState where
  sections : List (Option Paragraph × List Paragraph)
  curHeader : Option Paragraph
  curBody : List Paragraph
deriving DecidableEq

/-- One iteration of the paragraph loop in `_locate_sections`: on a header, the
accumulated body is appended only when a current header exists. -/
def locateStep (st : LocState) (p : Paragraph) : LocState :=
  if is_all_caps_header (stripL p.text) then
    match st.curHeader with
    | some h => ⟨st.sections ++ [(some h, st.curBody)], some p, []⟩
    | none => ⟨st.sections, some p, []⟩
  else { st with curBody := st.curBody ++ [p] }

/-- `AutomatedResumeTailor._locate_sections`. -/
def locate_sections (doc : List Paragraph) : List (Option Paragraph × List Paragraph) :=
  let st := doc.foldl locateStep ⟨[], none, []⟩
  match st.curHeader with
  | some h => st.sections ++ [(some h, st.curBody)]
  | none => if st.curBody ≠ [] then st.sections ++ [(none, st.curBody)] else st.sections

/-- `AutomatedResumeTailor._replace_paragraph_text`: set the first run's text
and clear the others (the paragraph text becomes exactly the new text, run
formatting untouched); a paragraph without runs gets a fresh run carrying no
direct formatting. -/
def replace_paragraph_text (p : Paragraph) (s : Str) : Paragraph :=
  if p.sig.runs.isEmpty then ⟨s, { p.sig with runs := [⟨none, none, none, none⟩] }⟩
  else ⟨s, p.sig⟩

/-- `AutomatedResumeTailor._choose_anchor`. -/
def choose_anchor (line : Str) (anchors : Anchors) : Option Paragraph :=
  if startsWithL (str "•") line || startsWithL (str "- ") line || isSubL (str "•") line then
    anchors.bullet
  else if is_all_caps_header line then anchors.sectionHeader
  else anchors.body

/-- One indexed iteration of the first loop of `_replace_section_body`:
replace the text of the i-th existing paragraph, or clone the chosen anchor
(`_clone_paragraph_after` deep-copies the anchor's node) after the current last
paragraph; a line with no anchor or no reference paragraph is dropped. -/
def replaceBodyStep (anchors : Anchors) (cur : List Paragraph) (il : Nat × Str) : List Paragraph :=
  match cur.get? il.1 with
  | some p => cur.set il.1 (replace_paragraph_text p il.2)
  | none =>
    match choose_anchor il.2 anchors with
    | some anchor => if cur ≠ [] then cur ++ [replace_paragraph_text anchor il.2] else cur
    | none => cur

/-- `AutomatedResumeTailor._replace_section_body`: update the first `N`
template paragraphs in place, clone anchors for any excess lines, then clear
the text (but keep the paragraph) of every remaining template paragraph. -/
def replace_section_body (templateParagraphs : List Paragraph) (newLines : List Str)
    (anchors : Anchors) : List Paragraph :=
  let cur := newLines.enum.foldl (replaceBodyStep anchors) templateParagraphs
  cur.enum.map fun ip =>
    if ip.1 ≥ newLines.length then replace_paragraph_text ip.2 [] else ip.2

/-! ## `tailor_resume_strict.py`: the strict section rewriter

The helper functions of this script are defined in a region of the file that is
not part of the available source; each is modelled from the specification. -/

/-- Modelled from the spec: `paragraph_xml_signature` is missing from the
available source of tailor_resume_strict.py.  Spec 4.1: a pure, comparable
fingerprint of the paragraph's non-text structural properties (paragraph
properties, run properties, numbering properties), never of its text.  In this
model those properties are exactly the `Sig` field; the source's
`ignore_text=True` argument is the only form used. -/
def paragraph_xml_signature (p : Paragraph) : Sig := p.sig

/-- Modelled from the spec: `clone_paragraph_after` is missing from the
available source of tailor_resume_strict.py.  Spec 4.5: cloning copies the
paragraph's full structural node (paragraph properties, run properties,
numbering properties) together with its runs; the copy is inserted immediately
after the given paragraph.  The call sites pass a single paragraph, which is
therefore both the formatting donor and the insertion point. -/
def clone_paragraph_after (p : Paragraph) : Paragraph := ⟨p.text, p.sig⟩

/-- Modelled from the spec: `set_paragraph_text_preserve_runs` is missing from
the available source of tailor_resume_strict.py.  Spec 4.5: overwrites only the
textual content of the first run and clears the other runs' text, leaving every
formatting node intact, so only the text changes. -/
def set_paragraph_text_preserve_runs (p : Paragraph) (s : Str) : Paragraph :=
  { p with text := s }

/-- `_sanitize` inside `rewrite_section_from_lines`: strip, remove leading
`[•\-\*\t\s]+`, collapse internal whitespace runs, strip again. -/
def sanitize (s : Str) : Str :=
  stripL (collapseWS ((stripL s).dropWhile leadStripChar))

/-- The normalization loop of `rewrite_section_from_lines`: sanitize each line
and keep the non-empty results. -/
def cleanLines (lines : List Str) : List Str :=
  lines.foldl (fun acc ln => let t := sanitize ln; if !t.isEmpty then acc ++ [t] else acc) []

/-- `re.search(r"^\d+[\.\)]\s*", line)`: the line starts with one or more
digits followed by `.` or `)` (the trailing `\s*` always matches). -/
def startsNumberedList (l : Str) : Bool :=
  let ds := l.takeWhile Char.isDigit
  !ds.isEmpty &&
    (match l.drop ds.length with
     | c :: _ => c = '.' || c = ')'
     | [] => false)

/-- The title heuristic of mixed mode: contains `' | '` and does not begin
with a numbered-list pattern. -/
def looksLikeTitle (line : Str) : Bool :=
  isSubL (str " | ") line && !startsNumberedList line

/-- The `had_bullets` test and `default_anchor` selection of
`rewrite_section_from_lines`: the bullet anchor if the old body had any
bulleted paragraph and a bullet anchor exists, else body anchor, else bullet
anchor, else the header paragraph itself. -/
def defaultAnchor (header : Paragraph) (old_body : List Paragraph)
    (bullet_anchor body_anchor : Option Paragraph) : Paragraph :=
  let had_bullets := old_body.any fun p =>
    has_numbering p || startsWithL (str "•") (stripL p.text) ||
      startsWithL (str "- ") (stripL p.text)
  match had_bullets, bullet_anchor with
  | true, some ba => ba
  | _, _ => (body_anchor.orElse fun _ => bullet_anchor).getD header

/-- The insertion loop of `rewrite_section_from_lines`: for each line the
source calls `clone_paragraph_after(last if i == 0 else last)` — the clone
donor is always `last` (the section header for the first line, then the
previously inserted paragraph); the per-line `anchor` computed in mixed mode is
not passed to the clone call. -/
def insertAfterRun (last : Paragraph) : List Str → List Paragraph
  | [] => []
  | line :: rest =>
    let new_p := set_paragraph_text_preserve_runs (clone_paragraph_after last) line
    new_p :: insertAfterRun new_p rest

/-- `rewrite_section_from_lines` of tailor_resume_strict.py.  The old body
paragraphs are deleted (`delete_paragraph`), so the resulting section body is
exactly the list of newly inserted paragraphs, returned in the `ok` case; the
`RuntimeError` raises are the `error` case. -/
def rewrite_section_from_lines (header : Paragraph) (old_body : List Paragraph)
    (lines : List Str) (bullet_anchor body_anchor : Option Paragraph)
    (strict_verify : Bool) (mixed_mode : Bool) : Except Str (List Paragraph) :=
  let clean_lines := cleanLines lines
  let default_anchor := defaultAnchor header old_body bullet_anchor body_anchor
  let sig_default := paragraph_xml_signature default_anchor
  let new_pars := insertAfterRun header clean_lines
  if mixed_mode = false then
    if strict_verify &&
        new_pars.any (fun np => paragraph_xml_signature np != sig_default) then
      Except.error (str "Formatting drift detected: cloned paragraph does not match anchor formatting.")
    else Except.ok new_pars
  else
    let sig_bullet := paragraph_xml_signature (bullet_anchor.getD default_anchor)
    let sig_body := paragraph_xml_signature (body_anchor.getD default_anchor)
    if strict_verify &&
        new_pars.any (fun np =>
          let target_sig := if looksLikeTitle np.text then sig_body else sig_bullet
          paragraph_xml_signature np != target_sig) then
      Except.error (str "Formatting drift detected in mixed mode: cloned paragraph does not match target anchor.")
    else Except.ok new_pars

/-! ## Helper lemmas -/

theorem isOk_ite_error (c : Bool) (e : Str) (v : List Paragraph) :
    (if c = true then (Except.error e : Except Str (List Paragraph)) else Except.ok v).isOk = !c := by
  cases c <;> rfl

theorem dropWhile_head_not {α : Type} (p : α → Bool) :
    ∀ (x : List α) (c : α) (t : List α), x.dropWhile p = c :: t → p c = false := by
  intro x
  induction x with
  | nil => intro c t h; simp at h
  | cons a x ih =>
    intro c t h
    rw [List.dropWhile_cons] at h
    by_cases hp : p a = true
    · rw [if_pos hp] at h; exact ih c t h
    · rw [if_neg hp] at h
      injection h with h1 _
      rw [h1] at hp
      simpa using hp

theorem dropWhile_append_singleton {α : Type} (p : α → Bool) (c : α) (hc : p c = false) :
    ∀ xs : List α, (xs ++ [c]).dropWhile p = xs.dropWhile p ++ [c] := by
  intro xs
  induction xs with
  | nil => simp [List.dropWhile_cons, hc]
  | cons x xs ih =>
    by_cases hx : p x = true <;> simp [List.dropWhile_cons, hx, ih]

theorem stripL_cons_head (c : Char) (l : Str) (hc : isPySpace c = false) :
    (stripL (c :: l)).head? = some c := by
  unfold stripL
  rw [List.dropWhile_cons, if_neg (by simp [hc])]
  rw [List.reverse_cons, dropWhile_append_singleton isPySpace c hc, List.reverse_append]
  simp

theorem collapseWS_cons (c : Char) (l : Str) (hc : isPySpace c = false) :
    collapseWS (c :: l) = c :: collapseWS l := by
  cases l with
  | nil => simp [collapseWS, hc]
  | cons d rest => simp [collapseWS, hc]

theorem sanitize_head (l : Str) (c : Char) (h : (sanitize l).head? = some c) :
    leadStripChar c = false := by
  unfold sanitize at h
  cases hs : (stripL l).dropWhile leadStripChar with
  | nil => rw [hs] at h; simp [collapseWS, stripL] at h
  | cons h2 t2 =>
    rw [hs] at h
    have hlead : leadStripChar h2 = false := dropWhile_head_not leadStripChar _ h2 t2 hs
    have hsp : isPySpace h2 = false := by
      cases hps : isPySpace h2
      · rfl
      · exfalso
        unfold leadStripChar at hlead
        rw [hps] at hlead
        simp at hlead
    rw [collapseWS_cons h2 t2 hsp, stripL_cons_head h2 _ hsp] at h
    injection h with h1
    rw [← h1]
    exact hlead

theorem cleanLines_go (ls : List Str) :
    ∀ acc : List Str,
      ls.foldl (fun acc ln => let t := sanitize ln; if !t.isEmpty then acc ++ [t] else acc) acc =
        acc ++ (ls.map sanitize).filter (fun t => !t.isEmpty) := by
  induction ls with
  | nil => intro acc; simp
  | cons l ls ih =>
    intro acc
    simp only [List.foldl_cons, List.map_cons, List.filter_cons]
    by_cases hc : (!(sanitize l).isEmpty) = true
    · rw [if_pos hc, if_pos hc, ih, List.append_assoc]
      rfl
    · rw [if_neg hc, if_neg hc, ih]

theorem cleanLines_eq (ls : List Str) :
    cleanLines ls = (ls.map sanitize).filter (fun t => !t.isEmpty) := by
  unfold cleanLines
  simpa using cleanLines_go ls []

theorem isPrefixOf_append_right (l m m2 : Str) (h : List.isPrefixOf l m = true) :
    List.isPrefixOf l (m ++ m2) = true := by
  rw [List.isPrefixOf_iff_prefix] at h ⊢
  exact h.trans (List.prefix_append m m2)

theorem isSuffixOf_append_self (m l : Str) : List.isSuffixOf l (m ++ l) = true := by
  rw [List.isSuffixOf_iff_suffix]
  exact List.suffix_append m l

theorem find?_map_setSec (k k2 : Str) (v : List Str) (h : k ≠ k2) :
    ∀ m : List (Str × List Str),
      List.find? (fun kv => kv.1 = k2) (m.map fun kv => if kv.1 = k then (k, v) else kv) =
        List.find? (fun kv => kv.1 = k2) m := by
  intro m
  induction m with
  | nil => rfl
  | cons a m ih =>
    simp only [List.map_cons, List.find?_cons]
    by_cases ha : a.1 = k
    · rw [if_pos ha]
      have h1 : decide ((k, v).1 = k2) = false := by simp [h]
      have h2 : decide (a.1 = k2) = false := by simp [ha, h]
      rw [h1, h2]
      exact ih
    · rw [if_neg ha]
      cases hb : decide (a.1 = k2) <;> simp [hb, ih]

theorem lookupSec_append_single_ne (m : List (Str × List Str)) (k k2 : Str) (v : List Str)
    (h : k ≠ k2) : lookupSec (m ++ [(k, v)]) k2 = lookupSec m k2 := by
  unfold lookupSec
  rw [List.find?_append]
  have h0 : List.find? (fun kv => kv.1 = k2) [(k, v)] = none := by simp [h]
  rw [h0, Option.or_none]

theorem lookupSec_setSec_ne (m : List (Str × List Str)) (k k2 : Str) (v : List Str)
    (h : k ≠ k2) : lookupSec (setSec m k v) k2 = lookupSec m k2 := by
  unfold setSec
  by_cases hany : (m.any fun kv => kv.1 = k) = true
  · rw [if_pos hany]
    unfold lookupSec
    rw [find?_map_setSec k k2 v h m]
  · rw [if_neg hany]
    exact lookupSec_append_single_ne m k k2 v h

theorem getSec_eq_nil_of_lookup_none (m : List (Str × List Str)) (k : Str)
    (h : lookupSec m k = none) : getSec m k = [] := by
  unfold lookupSec at h
  unfold getSec
  cases hf : m.find? (fun kv => kv.1 = k) with
  | none => rfl
  | some kv => rw [hf] at h; simp at h

/-- The Body guard of `_build_style_anchors`, on the paragraph itself. -/
def bodyAnchorCond (p : Paragraph) : Bool :=
  !(stripL p.text).isEmpty && !is_all_caps_header (stripL p.text) && !has_numbering p

theorem anchorStepHeader_body (a : Anchors) (p : Paragraph) (t : Str) :
    (anchorStepHeader a p t).body = a.body := by
  unfold anchorStepHeader
  split <;> rfl

theorem anchorStepContact_body (a : Anchors) (p : Paragraph) (t : Str) :
    (anchorStepContact a p t).body = a.body := by
  unfold anchorStepContact
  split <;> rfl

theorem anchorStepBullet_body (a : Anchors) (p : Paragraph) (t : Str) :
    (anchorStepBullet a p t).body = a.body := by
  unfold anchorStepBullet
  split <;> rfl

theorem anchorStepBody_body (a : Anchors) (p : Paragraph) (t : Str) :
    (anchorStepBody a p t).body = a.body ∨
      ((anchorStepBody a p t).body = some p ∧
        (!t.isEmpty && !is_all_caps_header t && !has_numbering p) = true) := by
  unfold anchorStepBody
  by_cases hc : (a.body.isNone && (!t.isEmpty && !is_all_caps_header t && !has_numbering p)) = true
  · right
    rw [if_pos hc]
    refine ⟨rfl, ?_⟩
    simp only [Bool.and_eq_true] at hc ⊢
    exact hc.2
  · left
    rw [if_neg hc]

theorem anchorStep_body (a : Anchors) (p : Paragraph) :
    (anchorStep a p).body = a.body ∨
      ((anchorStep a p).body = some p ∧ bodyAnchorCond p = true) := by
  unfold anchorStep
  rcases anchorStepBody_body (anchorStepBullet (anchorStepContact
      (anchorStepHeader a p (stripL p.text)) p (stripL p.text)) p (stripL p.text)) p
      (stripL p.text) with h | ⟨h1, h2⟩
  · left
    rw [h, anchorStepBullet_body, anchorStepContact_body, anchorStepHeader_body]
  · right
    exact ⟨h1, h2⟩

theorem anchors_body_inv :
    ∀ (doc : List Paragraph) (a : Anchors),
      (∀ r, a.body = some r → bodyAnchorCond r = true) →
      ∀ q, (buildStyleAnchorsGo a doc).body = some q → bodyAnchorCond q = true := by
  intro doc
  induction doc with
  | nil => intro a ha q h; exact ha q h
  | cons p rest ih =>
    intro a ha q h
    have hinv : ∀ r, (anchorStep a p).body = some r → bodyAnchorCond r = true := by
      intro r hr
      rcases anchorStep_body a p with he | ⟨he, hc⟩
      · exact ha r (he ▸ hr)
      · rw [he] at hr
        injection hr with h1
        rw [← h1]
        exact hc
    rw [buildStyleAnchorsGo] at h
    split at h
    · exact hinv q h
    · exact ih (anchorStep a p) hinv q h

/-- The parse loop never creates or targets the `PROJECTS` section when the
marker is absent from the (stripped) line: one step. -/
theorem parseStep_keeps (st : ParseState) (ln : Str)
    (hln : isSubL MARKER_PROJECTS (stripL ln) = false)
    (hcur : st.cur ≠ some (str "PROJECTS"))
    (hsec : lookupSec st.sections (str "PROJECTS") = none) :
    (parseStep st ln).cur ≠ some (str "PROJECTS") ∧
      lookupSec (parseStep st ln).sections (str "PROJECTS") = none := by
  have hsave : ∀ newKey : Str, newKey ≠ str "PROJECTS" →
      (save_and_start_section st newKey).cur ≠ some (str "PROJECTS") ∧
        lookupSec (save_and_start_section st newKey).sections (str "PROJECTS") = none := by
    intro newKey hk
    unfold save_and_start_section
    refine ⟨by simpa using hk, ?_⟩
    cases hc : st.cur with
    | none => exact hsec
    | some k =>
      have hkk : k ≠ str "PROJECTS" := fun e => hcur (by rw [hc, e])
      show lookupSec
        (if st.curLines ≠ [] then setSec st.sections k st.curLines else st.sections)
        (str "PROJECTS") = none
      by_cases hl : st.curLines ≠ []
      · rw [if_pos hl, lookupSec_setSec_ne st.sections k (str "PROJECTS") st.curLines hkk]
        exact hsec
      · rw [if_neg hl]
        exact hsec
  unfold parseStep
  by_cases h0 : (stripL ln).isEmpty = true
  · simpa [h0] using ⟨hcur, hsec⟩
  rw [if_neg (by simpa using h0)]
  by_cases h1 : isSubL MARKER_HEADER (stripL ln) = true
  · rw [if_pos h1]; exact hsave (str "HEADER") (by decide)
  rw [if_neg (by simpa using h1)]
  by_cases h2 : isSubL MARKER_EDUCATION (stripL ln) = true
  · rw [if_pos h2]; exact hsave (str "EDUCATION") (by decide)
  rw [if_neg (by simpa using h2)]
  rw [if_neg (by simp [hln])]
  by_cases h3 : (isSubL MARKER_EXPERIENCE (stripL ln) || isSubL (str "===EXPERIENCE===") (stripL ln)) = true
  · rw [if_pos h3]; exact hsave (str "EXPERIENCE") (by decide)
  rw [if_neg (by simpa using h3)]
  by_cases h4 : (isSubL MARKER_SKILLS (stripL ln) || isSubL (str "===SKILLS===") (stripL ln)) = true
  · rw [if_pos h4]; exact hsave (str "SKILLS") (by decide)
  rw [if_neg (by simpa using h4)]
  cases hc : st.cur with
  | some k => exact ⟨fun e => hcur (hc.trans e), hsec⟩
  | none =>
    refine ⟨by simp, ?_⟩
    have hHP : (str "HEADER") ≠ (str "PROJECTS") := by decide
    show lookupSec
      (setSec
        (if st.sections.any (fun kv => kv.1 = str "HEADER") then st.sections
         else st.sections ++ [(str "HEADER", [])])
        (str "HEADER")
        (getSec
          (if st.sections.any (fun kv => kv.1 = str "HEADER") then st.sections
           else st.sections ++ [(str "HEADER", [])])
          (str "HEADER") ++ [stripL ln]))
      (str "PROJECTS") = none
    by_cases hh : (st.sections.any fun kv => kv.1 = str "HEADER") = true
    · rw [if_pos hh, lookupSec_setSec_ne st.sections (str "HEADER") (str "PROJECTS") _ hHP]
      exact hsec
    · rw [if_neg hh,
        lookupSec_setSec_ne (st.sections ++ [(str "HEADER", [])]) (str "HEADER")
          (str "PROJECTS") _ hHP,
        lookupSec_append_single_ne st.sections (str "HEADER") (str "PROJECTS") [] hHP]
      exact hsec

theorem parseFold_keeps (ls : List Str)
    (H : ∀ ln ∈ ls, isSubL MARKER_PROJECTS (stripL ln) = false) :
    ∀ st : ParseState, st.cur ≠ some (str "PROJECTS") →
      lookupSec st.sections (str "PROJECTS") = none →
      (ls.foldl parseStep st).cur ≠ some (str "PROJECTS") ∧
        lookupSec ((ls.foldl parseStep st).sections) (str "PROJECTS") = none := by
  induction ls with
  | nil => intro st h1 h2; exact ⟨h1, h2⟩
  | cons ln ls ih =>
    intro st h1 h2
    have hstep := parseStep_keeps st ln (H ln (by simp)) h1 h2
    simpa using ih (fun l hl => H l (by simp [hl])) (parseStep st ln) hstep.1 hstep.2

/-- If no (stripped) line of the text contains the `===PROJECTS===` marker,
the parsed section dictionary has no `PROJECTS` entry at all. -/
theorem parse_no_projects (txt : Str)
    (H : ∀ ln ∈ splitOnNewline txt, isSubL MARKER_PROJECTS (stripL ln) = false) :
    lookupSec (parse_ai_structured_txt txt) (str "PROJECTS") = none := by
  have h := parseFold_keeps (splitOnNewline txt) H ⟨[], none, []⟩ (by simp) (by simp [lookupSec])
  have hfin : ∀ st : ParseState, st.cur ≠ some (str "PROJECTS") →
      lookupSec st.sections (str "PROJECTS") = none →
      lookupSec (parseFinish st) (str "PROJECTS") = none := by
    intro st hcur hsec
    unfold parseFinish
    cases hc : st.cur with
    | none => exact hsec
    | some k =>
      have hk : k ≠ str "PROJECTS" := fun e => hcur (by rw [hc, e])
      show lookupSec
        (if st.curLines ≠ [] then setSec st.sections k st.curLines else st.sections)
        (str "PROJECTS") = none
      by_cases hl : st.curLines ≠ []
      · rw [if_pos hl, lookupSec_setSec_ne _ k (str "PROJECTS") _ hk]
        exact hsec
      · rw [if_neg hl]
        exact hsec
  exact hfin _ h.1 h.2

theorem bulletPrefix_starts (c : Str) : startsWithL (str "•") (bulletPrefix c) = true := by
  unfold bulletPrefix
  by_cases h : startsWithL (str "•") c = true
  · rw [if_pos h]
    exact h
  · rw [if_neg h]
    rfl

theorem bulletSuffix_preserves_prefix (p c : Str) (h : startsWithL p c = true) :
    startsWithL p (bulletSuffix c) = true := by
  unfold bulletSuffix
  by_cases hend : (endsWithL (str ".") c || endsWithL (str "?") c ||
      endsWithL (str "!") c) = true
  · rw [if_pos hend]
    exact h
  · rw [if_neg hend]
    exact isPrefixOf_append_right p c (str ".") h

theorem bulletSuffix_ends (c : Str) :
    (endsWithL (str ".") (bulletSuffix c) || endsWithL (str "?") (bulletSuffix c) ||
      endsWithL (str "!") (bulletSuffix c)) = true := by
  unfold bulletSuffix
  by_cases hend : (endsWithL (str ".") c || endsWithL (str "?") c ||
      endsWithL (str "!") c) = true
  · rw [if_pos hend]
    exact hend
  · rw [if_neg hend]
    have h1 : endsWithL (str ".") (c ++ str ".") = true := isSuffixOf_append_self c (str ".")
    simp [h1]

/-! ## Concrete inputs used by the claim theorems -/

/-- A two-paragraph template: an `EDUCATION` header and one body entry, both
formatted in Arial (a signature the hardcoded decoder can never emit). -/
def templateT : List Paragraph :=
  [⟨str "EDUCATION",
    ⟨some Align.left, some 0, some 0, false, [⟨some (str "Arial"), some 13, some true, some true⟩]⟩⟩,
   ⟨str "School | BS | 2020",
    ⟨some Align.left, some 0, some 0, false, [⟨some (str "Arial"), some 12, some false, none⟩]⟩⟩]

/-- A section rewrite input: a header and two anchors with distinct signatures. -/
def c2Header : Paragraph := ⟨str "TECHNICAL SKILLS", mkSig 10⟩

/-- The bullet anchor of the C2 scenario. -/
def c2BulletAnchor : Paragraph := ⟨str "• bullet", mkSig 12⟩

/-- The body anchor of the C2 scenario. -/
def c2BodyAnchor : Paragraph := ⟨str "plain body", mkSig 11⟩

/-- A three-paragraph template section body for `_replace_section_body`. -/
def c2TemplateBody : List Paragraph :=
  [⟨str "one", mkSig 1⟩, ⟨str "two", mkSig 2⟩, ⟨str "three", mkSig 3⟩]

/-- Anchors for the `_replace_section_body` scenario. -/
def c2Anchors : Anchors :=
  ⟨some ⟨str "HDR", mkSig 5⟩, some ⟨str "• b", mkSig 6⟩, some ⟨str "plain", mkSig 7⟩, none⟩

/-- Structured text that contains no `===PROJECTS===` marker. -/
def c3Txt : Str := str "===HEADER===\nJane\n===EDUCATION===\nState U | BS | 2020"

/-- A document with one non-header paragraph before its first ALL-CAPS header. -/
def c4Doc : List Paragraph :=
  [⟨str "Jane Doe", mkSig 1⟩, ⟨str "EDUCATION", mkSig 2⟩, ⟨str "Bachelor of Science", mkSig 3⟩]

/-- Mixed-mode rewrite inputs with distinct header/body/bullet signatures. -/
def c6Header : Paragraph := ⟨str "PROJECTS", mkSig 20⟩

/-- The body anchor of the C6 scenario. -/
def c6BodyAnchor : Paragraph := ⟨str "Name | Org | Dates", mkSig 21⟩

/-- The bullet anchor of the C6 scenario. -/
def c6BulletAnchor : Paragraph := ⟨str "• detail", mkSig 22⟩

/-- A paragraph whose text starts with the bullet glyph and carries no
numbering formatting. -/
def c8Bullet : Paragraph := ⟨str "• point one", mkSig 30⟩

/-- An ordinary body paragraph. -/
def c8Body : Paragraph := ⟨str "plain body text", mkSig 31⟩

/-- Structured text whose PROJECTS content line starts with `•` but not `• `. -/
def c10Txt : Str := str "===PROJECTS===\n•x"

/-! ## The claims -/

/-- Claim C1 (code bug): the claim demands that decoding the encoding of a
template T against T itself reproduce every paragraph's formatting signature.
The decoder `structured_txt_to_docx` never reads its `master_docx_path`
parameter: it emits hardcoded Times-New-Roman formatting and renders the
header's own text line again as a body entry.  On the two-paragraph Arial
template the round trip yields three paragraphs and already the first decoded
signature differs from the template's. -/
theorem claim_C1_roundtrip_divergence :
    (structured_txt_to_docx (docx_to_structured_txt templateT)).length = 3 ∧
    templateT.length = 2 ∧
    (structured_txt_to_docx (docx_to_structured_txt templateT)).map Paragraph.sig ≠
      templateT.map Paragraph.sig ∧
    ((structured_txt_to_docx (docx_to_structured_txt templateT)).map Paragraph.sig).head? ≠
      ((templateT.map Paragraph.sig).head?) := by
  refine ⟨rfl, rfl, by decide, by decide⟩

/-- Claim C2 (code bug): with N surviving lines the strict rewriter does
produce N paragraphs, but clones each of them from the previously inserted
paragraph (the section header first) instead of the chosen anchor — the
per-line anchor the source computes is never passed to the clone call — so
their signatures equal the header's, not the default (body) anchor's; with
strict verification the same call aborts.  The other cited implementation,
`_replace_section_body`, keeps all M template paragraphs when N < M (clearing
text), so the section does not have exactly N paragraphs either. -/
theorem claim_C2_rewrite_divergence :
    rewrite_section_from_lines c2Header [] [str "alpha", str "beta"]
        (some c2BulletAnchor) (some c2BodyAnchor) false false =
      Except.ok [⟨str "alpha", mkSig 10⟩, ⟨str "beta", mkSig 10⟩] ∧
    defaultAnchor c2Header [] (some c2BulletAnchor) (some c2BodyAnchor) = c2BodyAnchor ∧
    mkSig 10 ≠ mkSig 11 ∧
    (rewrite_section_from_lines c2Header [] [str "alpha", str "beta"]
        (some c2BulletAnchor) (some c2BodyAnchor) true false).isOk = false ∧
    (replace_section_body c2TemplateBody [str "only"] c2Anchors).length = 3 ∧
    (replace_section_body c2TemplateBody [str "only"] c2Anchors).map Paragraph.text =
      [str "only", [], []] := by
  refine ⟨rfl, rfl, by decide, rfl, rfl, rfl⟩

/-- Claim C3 (counterexample): decoding structured text lacking the
`===PROJECTS===` marker succeeds, but the resulting document contains no
paragraph with the Projects header text at all — the header is not kept. -/
theorem claim_C3_counterexample :
    (structured_txt_to_docx c3Txt).map Paragraph.text =
      [str "Jane", str "EDUCATION", str "State U | BS | 2020"] ∧
    ((structured_txt_to_docx c3Txt).all fun p => p.text != str "PROJECTS") = true := by
  refine ⟨rfl, by decide⟩

/-- Claim C3 (amended): decoding text lacking a `===PROJECTS===` marker does
not fail, but the output omits the Projects section entirely — no `PROJECTS`
entry is parsed and the projects builder contributes zero paragraphs (the
template document is never consulted by the decoder). -/
theorem claim_C3_missing_projects (txt : Str)
    (H : ∀ ln ∈ splitOnNewline (clean_structured_txt txt),
      isSubL MARKER_PROJECTS (stripL ln) = false) :
    lookupSec (parse_ai_structured_txt (clean_structured_txt txt)) (str "PROJECTS") = none ∧
    structured_txt_to_docx txt =
      add_header_section
          (getSec (parse_ai_structured_txt (clean_structured_txt txt)) (str "HEADER")) ++
        add_education_section
          (getSec (parse_ai_structured_txt (clean_structured_txt txt)) (str "EDUCATION")) ++
        add_experience_section
          (getSec (parse_ai_structured_txt (clean_structured_txt txt)) (str "EXPERIENCE")) ++
        add_skills_section
          (getSec (parse_ai_structured_txt (clean_structured_txt txt)) (str "SKILLS")) := by
  have h1 := parse_no_projects _ H
  refine ⟨h1, ?_⟩
  simp only [structured_txt_to_docx]
  rw [getSec_eq_nil_of_lookup_none _ _ h1]
  simp [add_projects_section]

/-- Witness for the amended C3 statement at a concrete structured text. -/
theorem claim_C3_missing_projects_witness :
    lookupSec (parse_ai_structured_txt (clean_structured_txt c3Txt)) (str "PROJECTS") = none ∧
    structured_txt_to_docx c3Txt =
      add_header_section
          (getSec (parse_ai_structured_txt (clean_structured_txt c3Txt)) (str "HEADER")) ++
        add_education_section
          (getSec (parse_ai_structured_txt (clean_structured_txt c3Txt)) (str "EDUCATION")) ++
        add_experience_section
          (getSec (parse_ai_structured_txt (clean_structured_txt c3Txt)) (str "EXPERIENCE")) ++
        add_skills_section
          (getSec (parse_ai_structured_txt (clean_structured_txt c3Txt)) (str "SKILLS")) :=
  claim_C3_missing_projects c3Txt (by decide)

/-- Claim C4 (code bug): `_locate_sections` drops the paragraphs preceding the
first ALL-CAPS header instead of returning them as a headerless leading
section: on a document whose first paragraph is plain content, the result
contains only the headed section and the leading paragraph appears nowhere. -/
theorem claim_C4_leading_section_dropped :
    locate_sections c4Doc =
      [(some ⟨str "EDUCATION", mkSig 2⟩, [⟨str "Bachelor of Science", mkSig 3⟩])] ∧
    is_all_caps_header (stripL (str "Jane Doe")) = false := by
  refine ⟨rfl, by decide⟩

/-- Claim C5 (confirmed): with `strict_verify = true` the rewrite returns an
error exactly when some newly inserted paragraph's formatting signature
differs from the signature of the anchor associated with its line (the default
anchor in uniform mode; in mixed mode the body or bullet anchor according to
the title heuristic re-applied to the paragraph's text), and succeeds — no
error — exactly when every signature matches. -/
theorem claim_C5_strict_drift (header : Paragraph) (old_body : List Paragraph)
    (lines : List Str) (bullet_anchor body_anchor : Option Paragraph) (mixed_mode : Bool) :
    (rewrite_section_from_lines header old_body lines bullet_anchor body_anchor true
        mixed_mode).isOk = true ↔
      ∀ np ∈ insertAfterRun header (cleanLines lines),
        paragraph_xml_signature np =
          (if mixed_mode then
            (if looksLikeTitle np.text then
              paragraph_xml_signature
                (body_anchor.getD (defaultAnchor header old_body bullet_anchor body_anchor))
            else
              paragraph_xml_signature
                (bullet_anchor.getD (defaultAnchor header old_body bullet_anchor body_anchor)))
          else
            paragraph_xml_signature (defaultAnchor header old_body bullet_anchor body_anchor)) := by
  cases mixed_mode with
  | false =>
    simp only [rewrite_section_from_lines]
    rw [if_pos trivial, isOk_ite_error]
    simp [Bool.not_eq_true', List.any_eq_false, bne_iff_ne, not_ne_iff]
  | true =>
    simp only [rewrite_section_from_lines]
    rw [if_neg (by simp), isOk_ite_error]
    simp [Bool.not_eq_true', List.any_eq_false, bne_iff_ne, not_ne_iff]

/-- Witness for C5: a concrete strict rewrite in which every inserted
signature matches its anchor's, hence no error. -/
theorem claim_C5_strict_drift_witness :
    (rewrite_section_from_lines ⟨str "SKILLS", mkSig 40⟩ [] [str "skills line"] none none
        true false).isOk = true :=
  (claim_C5_strict_drift ⟨str "SKILLS", mkSig 40⟩ [] [str "skills line"] none none false).mpr
    (by decide)

/-- Claim C6 (code bug): the title classification itself is as claimed — a
line is a title exactly when it contains `' | '` and does not begin with a
numbered-list pattern — but the paragraph created for a title line is not
cloned from the body anchor: the source computes the per-line anchor and then
clones `last` (the header for the first line), so the created paragraph
carries the header's signature, and the strict variant of the same call
aborts. -/
theorem claim_C6_mixed_mode_divergence :
    looksLikeTitle (str "Alpha | Beta") = true ∧
    looksLikeTitle (str "1. Alpha | Beta") = false ∧
    rewrite_section_from_lines c6Header [] [str "Alpha | Beta"]
        (some c6BulletAnchor) (some c6BodyAnchor) false true =
      Except.ok [⟨str "Alpha | Beta", mkSig 20⟩] ∧
    mkSig 20 ≠ mkSig 21 ∧
    (rewrite_section_from_lines c6Header [] [str "Alpha | Beta"]
        (some c6BulletAnchor) (some c6BodyAnchor) true true).isOk = false := by
  refine ⟨by decide, by decide, rfl, by decide, rfl⟩

/-- Claim C7 (counterexample): the claim says encoding treats a paragraph as a
section header iff its trimmed text is non-empty, entirely upper-case and at
most 48 characters; the encoder's `_is_section_header` instead tests keyword
containment, so the all-lowercase text `"i love education"` is treated as a
header by encoding while the claimed rule (and `_is_all_caps_header`) reject
it. -/
theorem claim_C7_counterexample :
    is_section_header (str "i love education") = true ∧
    is_all_caps_header (str "i love education") = false ∧
    (str "i love education").any Char.isLower = true := by
  refine ⟨by decide, by decide, by decide⟩

/-- Claim C7 (amended): section location (`_is_all_caps_header`) recognizes a
header iff the stripped text has a cased character, no lowercase character,
and length in (0, 48]; the encoder (`_is_section_header`) instead recognizes a
header iff the upper-cased stripped text contains one of a fixed keyword
list. -/
theorem claim_C7_header_rules (s : Str) :
    (is_all_caps_header s = true ↔
      ((∃ c ∈ stripL s, (c.isUpper || c.isLower) = true) ∧
       (∀ c ∈ stripL s, c.isLower = false) ∧
       0 < (stripL s).length ∧ (stripL s).length ≤ 48)) ∧
    (is_section_header s = true ↔
      ∃ kw ∈ section_keywords, isSubL kw (stripL (upperL s)) = true) := by
  constructor
  · unfold is_all_caps_header pyIsUpper
    simp [List.any_eq_true, List.all_eq_true, Bool.not_eq_true', and_assoc]
  · unfold is_section_header
    simp [List.any_eq_true]

/-- Witness for the amended C7 statement at a concrete header text. -/
theorem claim_C7_header_rules_witness :
    is_all_caps_header (str "EDUCATION") = true :=
  (claim_C7_header_rules (str "EDUCATION")).1.mpr (by decide)

/-- Claim C8 (counterexample): a paragraph whose text starts with the bullet
glyph `•` but carries no numbering formatting is bound as the Body anchor
(while also being the Bullet anchor): the Body guard excludes only headers and
numbering, not glyph bullets. -/
theorem claim_C8_counterexample :
    (build_style_anchors [c8Bullet]).body = some c8Bullet ∧
    (build_style_anchors [c8Bullet]).bullet = some c8Bullet ∧
    startsWithL (str "•") (stripL c8Bullet.text) = true ∧
    has_numbering c8Bullet = false := by
  refine ⟨rfl, rfl, by decide, by decide⟩

/-- Claim C8 (amended): anchor discovery binds the Body role only to a
paragraph with non-empty stripped text that is not an ALL-CAPS header and
carries no numbering formatting; a glyph-bulleted paragraph without numbering
formatting is not excluded and can be bound as the Body anchor. -/
theorem claim_C8_body_anchor_guard (doc : List Paragraph) (q : Paragraph)
    (h : (build_style_anchors doc).body = some q) :
    stripL q.text ≠ [] ∧ is_all_caps_header (stripL q.text) = false ∧
      has_numbering q = false := by
  have hc := anchors_body_inv doc ⟨none, none, none, none⟩ (by intro r hr; simp at hr) q h
  unfold bodyAnchorCond at hc
  simp only [Bool.and_eq_true, Bool.not_eq_true'] at hc
  exact ⟨List.isEmpty_eq_false.mp hc.1.1, hc.1.2, hc.2⟩

/-- Witness for the amended C8 statement at a concrete document. -/
theorem claim_C8_body_anchor_guard_witness :
    stripL c8Body.text ≠ [] ∧ is_all_caps_header (stripL c8Body.text) = false ∧
      has_numbering c8Body = false :=
  claim_C8_body_anchor_guard [c8Body] c8Body (by decide)

/-- Claim C9 (confirmed): the rewriter's normalization keeps exactly the
sanitized lines that remain non-empty (trim, strip leading bullet glyphs /
dashes / asterisks / whitespace, collapse whitespace runs); a surviving line is
non-empty and never starts with a stripped leading character; and when every
line is discarded the rewrite returns the empty body without error, for any
verification mode. -/
theorem claim_C9_normalization (header : Paragraph) (old_body : List Paragraph)
    (lines : List Str) (bullet_anchor body_anchor : Option Paragraph)
    (strict_verify mixed_mode : Bool) :
    cleanLines lines = (lines.map sanitize).filter (fun t => !t.isEmpty) ∧
    (∀ t ∈ cleanLines lines, t ≠ [] ∧ ∀ c, t.head? = some c → leadStripChar c = false) ∧
    ((∀ l ∈ lines, sanitize l = []) →
      rewrite_section_from_lines header old_body lines bullet_anchor body_anchor
        strict_verify mixed_mode = Except.ok []) := by
  refine ⟨cleanLines_eq lines, ?_, ?_⟩
  · intro t ht
    rw [cleanLines_eq] at ht
    have hmem := List.mem_filter.mp ht
    obtain ⟨l, _, hl⟩ := List.mem_map.mp hmem.1
    refine ⟨List.isEmpty_eq_false.mp (by simpa using hmem.2), ?_⟩
    intro c hc
    rw [← hl] at hc
    exact sanitize_head l c hc
  · intro hall
    have hcl : cleanLines lines = [] := by
      rw [cleanLines_eq, List.filter_eq_nil_iff]
      intro a ha
      obtain ⟨l, hl, hla⟩ := List.mem_map.mp ha
      simp [← hla, hall l hl]
    simp only [rewrite_section_from_lines]
    rw [hcl]
    cases mixed_mode <;> cases strict_verify <;> simp [insertAfterRun]

/-- Witness for C9: a concrete rewrite whose lines all normalize to empty. -/
theorem claim_C9_normalization_witness :
    rewrite_section_from_lines ⟨str "PROJECTS", mkSig 50⟩ [] [str "  ", str "• "] none none
        true true = Except.ok [] :=
  (claim_C9_normalization ⟨str "PROJECTS", mkSig 50⟩ [] [str "  ", str "• "] none none
    true true).2.2 (by decide)

/-- Claim C10 (counterexample): on the PROJECTS content line `"•x"` (no `|`),
the decoder emits the paragraph text `"•x."`, which does not start with
`"• "` — the prefix is only added when the line does not already start with
`"•"`. -/
theorem claim_C10_counterexample :
    (structured_txt_to_docx c10Txt).map Paragraph.text = [[], str "PROJECTS", str "•x."] ∧
    startsWithL (str "• ") (str "•x.") = false ∧
    isSubL (str "|") (str "•x") = false := by
  refine ⟨rfl, by decide, by decide⟩

/-- Claim C10 (amended): a non-blank PROJECTS or EXPERIENCE content line
without `|` is rendered as a regular 11pt paragraph whose text is the
bulletized line: it starts with `"•"` (with `"• "` prefixed only when the
stripped line does not already start with `"•"`) and ends with `"."`, `"?"` or
`"!"` (a `"."` is appended when none is present); a line already starting with
`"•"` and ending with such punctuation is reproduced verbatim. -/
theorem claim_C10_bullet_mutation (line : Str) (h1 : stripL line ≠ [])
    (h2 : isSubL (str "|") line = false) :
    renderProjectsLine line = some ⟨bulletizeLine line,
      ⟨some Align.left, some 0, some 0, false, [⟨some TNR, some 11, some false, none⟩]⟩⟩ ∧
    renderExperienceLine line = some ⟨bulletizeLine line,
      ⟨some Align.left, some 0, some 0, false, [⟨some TNR, some 11, some false, none⟩]⟩⟩ ∧
    startsWithL (str "•") (bulletizeLine line) = true ∧
    (endsWithL (str ".") (bulletizeLine line) || endsWithL (str "?") (bulletizeLine line) ||
      endsWithL (str "!") (bulletizeLine line)) = true ∧
    (startsWithL (str "•") (stripL line) = true →
      (endsWithL (str ".") (stripL line) || endsWithL (str "?") (stripL line) ||
        endsWithL (str "!") (stripL line)) = true →
      bulletizeLine line = stripL line) := by
  have hne : ¬(stripL line).isEmpty = true := by simpa [List.isEmpty_iff] using h1
  refine ⟨?_, ?_, ?_, ?_, ?_⟩
  · unfold renderProjectsLine
    rw [if_neg hne, if_neg (by simp [h2])]
  · unfold renderExperienceLine
    rw [if_neg hne, if_neg (by simp [h2])]
  · exact bulletSuffix_preserves_prefix _ _ (bulletPrefix_starts (stripL line))
  · exact bulletSuffix_ends _
  · intro hs he
    unfold bulletizeLine bulletPrefix bulletSuffix
    rw [if_pos hs, if_pos he]

/-- Witness for the amended C10 statement at a concrete content line. -/
theorem claim_C10_bullet_mutation_witness :
    startsWithL (str "•") (bulletizeLine (str "built a tool")) = true :=
  (claim_C10_bullet_mutation (str "built a tool") (by decide) (by decide)).2.2.1

end ResumeTailor
